import Mathlib

/-
Verification of the YouTube service layer (src/youtube_service.py).

The Python module is embedded shallowly: the remote YouTube API is a record
of four pure operations (channel lookup by handle, channel lookup by legacy
username, one page of video search, and the per-video rate call), and each
Python function of the service layer becomes a Lean function over that
record.  Side effects that the claims talk about (progress-callback
invocations, issued page requests, issued rate requests) are recorded in
ghost trace fields by `_run` variants whose observable components coincide
with the plain embeddings.
-/

namespace HampterLiker

/-- Embedding of the frozen dataclass `Channel` (id, handle). -/
structure Channel where
  id : String
  handle : String
  deriving DecidableEq

/-- Embedding of the frozen dataclass `Video` (id). -/
structure Video where
  id : String
  deriving DecidableEq

/-- Embedding of the frozen dataclass `LikeResult`, with the same field
defaults as the Python dataclass. -/
structure LikeResult where
  video_id : String
  success : Bool
  error : Option String := none
  quota_exceeded : Bool := false
  deriving DecidableEq

/-- One item of a channel-lookup response.  The Python code reads
`items[0]["id"]`; an item is modelled by the identifier it carries, since
`part="id"` is the only part requested. -/
structure ChannelItem where
  id : String
  deriving DecidableEq

/-- One item of a search response page.  The Python code reads
`item["id"]["videoId"]`. -/
structure SearchItem where
  videoId : String
  deriving DecidableEq

/-- A search response page: the items plus the optional continuation cursor
`nextPageToken` (absent key in Python becomes `none`). -/
structure PageResponse where
  items : List SearchItem
  nextPageToken : Option String
  deriving DecidableEq

/-- The remote YouTube API consumed by the service layer, as a record of the
four operations the module issues.  Lookup operations return
`Except.error e` when the underlying call raises (the Python code catches
the exception), `Except.ok items` otherwise; `rate` returns `some e` when
the call raises an HttpError whose string form is `e`, and `none` on
success. -/
structure YouTubeAPI where
  forHandle : String → Except String (List ChannelItem)
  forUsername : String → Except String (List ChannelItem)
  search : String → Option String → PageResponse
  rate : String → Option String

/-- Embedding of `clean_handle`: Python `handle.lstrip` with the single
character `'@'`, which removes every leading occurrence. -/
def clean_handle (handle : String) : String :=
  String.mk (handle.data.dropWhile (fun c => c == '@'))

/-- Embedding of `lookup_channel_by_handle`: returns the first item of the
response if there is one, and `none` both on an empty item list and on a
raised exception. -/
def lookup_channel_by_handle (youtube : YouTubeAPI) (handle : String) :
    Option ChannelItem :=
  match youtube.forHandle handle with
  | Except.error _ => none
  | Except.ok items => items.head?

/-- Embedding of `lookup_channel_by_username`, same shape as the handle
lookup but against the legacy-username endpoint. -/
def lookup_channel_by_username (youtube : YouTubeAPI) (username : String) :
    Option ChannelItem :=
  match youtube.forUsername username with
  | Except.error _ => none
  | Except.ok items => items.head?

/-- Tag naming one of the two lookup strategies tried by `find_channel`, in
the order the Python list `lookup_strategies` holds them. -/
inductive Strategy where
  | byHandle
  | byUsername
  deriving DecidableEq

/-- Embedding of `find_channel` together with a ghost log of the strategies
actually invoked.  The Python loop over `lookup_strategies` is unrolled:
the handle strategy runs first, and the username strategy runs only when
the handle strategy produced no match. -/
def find_channel_run (youtube : YouTubeAPI) (handle : String) :
    Option Channel × List Strategy :=
  let cleaned := clean_handle handle
  match lookup_channel_by_handle youtube cleaned with
  | some result => (some { id := result.id, handle := handle }, [Strategy.byHandle])
  | none =>
    match lookup_channel_by_username youtube cleaned with
    | some result =>
        (some { id := result.id, handle := handle },
         [Strategy.byHandle, Strategy.byUsername])
    | none => (none, [Strategy.byHandle, Strategy.byUsername])

/-- Embedding of `find_channel`: the channel returned by the strategy loop. -/
def find_channel (youtube : YouTubeAPI) (handle : String) : Option Channel :=
  (find_channel_run youtube handle).1

/-- Embedding of `fetch_video_page`: one search request for the given
channel and page token. -/
def fetch_video_page (youtube : YouTubeAPI) (channel_id : String)
    (page_token : Option String) : PageResponse :=
  youtube.search channel_id page_token

/-- Embedding of `extract_video_ids`. -/
def extract_video_ids (response : PageResponse) : List String :=
  response.items.map (fun item => item.videoId)

/-- Embedding of the inner accumulator of `fetch_all_video_ids`.  The
Python guard is the truthiness test `page_token is None and video_ids`. -/
def accumulate_videos (youtube : YouTubeAPI) (channel_id : String)
    (acc : List String × Option String) (_ : Nat) :
    List String × Option String :=
  let video_ids := acc.1
  let page_token := acc.2
  if page_token.isNone && !video_ids.isEmpty then acc
  else
    let response := fetch_video_page youtube channel_id page_token
    let new_ids := extract_video_ids response
    (video_ids ++ new_ids, response.nextPageToken)

/-- Embedding of `fetch_all_video_ids`: `reduce` of the accumulator over
`range(100)` starting from the empty list and no page token. -/
def fetch_all_video_ids (youtube : YouTubeAPI) (channel_id : String) :
    List String :=
  ((List.range 100).foldl (accumulate_videos youtube channel_id) ([], none)).1

/-- State of the pagination loop extended with a ghost log `fetched` of the
page responses obtained so far (one entry per issued page request). -/
structure FetchTrace where
  video_ids : List String
  page_token : Option String
  fetched : List PageResponse
  deriving DecidableEq

/-- The pagination accumulator with the ghost request log: identical to
`accumulate_videos` on the observable pair, and additionally appends the
response of each issued request to `fetched`. -/
def accumulate_videos_run (youtube : YouTubeAPI) (channel_id : String)
    (acc : FetchTrace) (_ : Nat) : FetchTrace :=
  if acc.page_token.isNone && !acc.video_ids.isEmpty then acc
  else
    let response := fetch_video_page youtube channel_id acc.page_token
    { video_ids := acc.video_ids ++ extract_video_ids response,
      page_token := response.nextPageToken,
      fetched := acc.fetched ++ [response] }

/-- The traced pagination state after the first `n` of the 100 reduce
steps. -/
def fetch_state (youtube : YouTubeAPI) (channel_id : String) (n : Nat) :
    FetchTrace :=
  (List.range n).foldl (accumulate_videos_run youtube channel_id)
    { video_ids := [], page_token := none, fetched := [] }

/-- The traced run of `fetch_all_video_ids` (all 100 reduce steps). -/
def fetch_all_video_ids_run (youtube : YouTubeAPI) (channel_id : String) :
    FetchTrace :=
  fetch_state youtube channel_id 100

/-- Embedding of `fetch_channel_videos`. -/
def fetch_channel_videos (youtube : YouTubeAPI) (channel_id : String) :
    List Video :=
  (fetch_all_video_ids youtube channel_id).map Video.mk

/-- Embedding of the prefix test used below: `starts_with hay needle` holds
when `needle` is an initial segment of `hay`. -/
def starts_with : List Char → List Char → Bool
  | _, [] => true
  | [], _ :: _ => false
  | c :: cs, d :: ds => c == d && starts_with cs ds

/-- Embedding of the Python substring operator `in`: `contains_sub needle
hay` holds when `needle` occurs contiguously inside `hay`. -/
def contains_sub (needle : List Char) : List Char → Bool
  | [] => starts_with [] needle
  | c :: t => starts_with (c :: t) needle || contains_sub needle t

/-- Embedding of the Python string method `lower` as a character-wise map.
The marker strings the module compares against are plain ASCII, where the
two agree. -/
def lower (s : String) : String :=
  String.mk (s.data.map Char.toLower)

/-- Embedding of `is_quota_exceeded_error`.  The argument is the string
form of the HttpError (Python applies `str` to the error first). -/
def is_quota_exceeded_error (error_str : String) : Bool :=
  contains_sub "quotaExceeded".data error_str.data ||
    contains_sub "quota".data (lower error_str).data

/-- Embedding of `like_video`: one rate request for the video; on success a
success result, on a raised HttpError a failure result carrying the string
form of the error and the quota classification. -/
def like_video (youtube : YouTubeAPI) (video : Video) : LikeResult :=
  match youtube.rate video.id with
  | none => { video_id := video.id, success := true }
  | some error =>
      { video_id := video.id, success := false, error := some error,
        quota_exceeded := is_quota_exceeded_error error }

/-- Embedding of `like_videos`: the list comprehension over all videos. -/
def like_videos (youtube : YouTubeAPI) (videos : List Video) :
    List LikeResult :=
  videos.map (like_video youtube)

/-- Trace of one run of the callback-driven executor: the produced results,
the ghost log of progress-callback invocations (argument triples, in
order), and the ghost log of issued rate requests (video ids, in order). -/
structure ExecTrace where
  results : List LikeResult
  calls : List (Nat × Nat × Video)
  requests : List String
  deriving DecidableEq

/-- The loop body of `like_videos_with_callback`: `i` is the 1-based index
carried by `enumerate(videos, 1)`, `tot` the total count.  Each iteration
issues one rate request, records the result, invokes the callback, and
breaks out of the loop when the result has the quota flag set. -/
def like_videos_with_callback_go (youtube : YouTubeAPI) (tot : Nat) :
    Nat → List Video → ExecTrace
  | _, [] => { results := [], calls := [], requests := [] }
  | i, video :: rest =>
    let result := like_video youtube video
    if result.quota_exceeded then
      { results := [result], calls := [(i, tot, video)], requests := [video.id] }
    else
      let t := like_videos_with_callback_go youtube tot (i + 1) rest
      { results := result :: t.results,
        calls := (i, tot, video) :: t.calls,
        requests := video.id :: t.requests }

/-- The traced run of `like_videos_with_callback`. -/
def like_videos_with_callback_run (youtube : YouTubeAPI)
    (videos : List Video) : ExecTrace :=
  like_videos_with_callback_go youtube videos.length 1 videos

/-- Embedding of `like_videos_with_callback`: the results list of the
traced run. -/
def like_videos_with_callback (youtube : YouTubeAPI) (videos : List Video) :
    List LikeResult :=
  (like_videos_with_callback_run youtube videos).results

/-- Embedding of `like_all_channel_videos`.  The optional `on_progress`
argument of the Python function is represented by the flag `hasCallback`;
the callback itself is pure bookkeeping recorded by the traced variants. -/
def like_all_channel_videos (youtube : YouTubeAPI) (handle : String)
    (hasCallback : Bool) : Option Channel × List Video × List LikeResult :=
  match find_channel youtube handle with
  | none => (none, [], [])
  | some channel =>
    let videos := fetch_channel_videos youtube channel.id
    let results :=
      if hasCallback then like_videos_with_callback youtube videos
      else like_videos youtube videos
    (some channel, videos, results)

/-- Ghost request log of one orchestrator run: the page responses fetched
by the enumeration stage and the video ids sent to the rate endpoint by
the like stage (the non-callback path issues one rate request per video,
via the comprehension in `like_videos`). -/
def like_all_channel_videos_run (youtube : YouTubeAPI) (handle : String)
    (hasCallback : Bool) : List PageResponse × List String :=
  match find_channel youtube handle with
  | none => ([], [])
  | some channel =>
    let ft := fetch_all_video_ids_run youtube channel.id
    let videos := ft.video_ids.map Video.mk
    (ft.fetched,
     if hasCallback then (like_videos_with_callback_run youtube videos).requests
     else videos.map (fun v => v.id))

/-- The lookup responses used by the concrete witnesses below: the handle
endpoint matches with identifier UC123 and the username endpoint raises. -/
def handleAPI : YouTubeAPI :=
  { forHandle := fun _ => Except.ok [{ id := "UC123" }],
    forUsername := fun _ => Except.error "boom",
    search := fun _ _ => { items := [], nextPageToken := none },
    rate := fun _ => none }

/-- Lookup responses for the C4 witness: the handle endpoint raises and the
username endpoint returns an empty item list, so both strategies fail. -/
def ghostAPI : YouTubeAPI :=
  { forHandle := fun _ => Except.error "404",
    forUsername := fun _ => Except.ok [],
    search := fun _ _ => { items := [{ videoId := "X" }], nextPageToken := none },
    rate := fun _ => none }

/-- Rate responses for the C10 witness: every rate call raises an error
whose text carries the quotaExceeded marker. -/
def quotaRateAPI : YouTubeAPI :=
  { forHandle := fun _ => Except.ok [],
    forUsername := fun _ => Except.ok [],
    search := fun _ _ => { items := [], nextPageToken := none },
    rate := fun _ => some "403 quotaExceeded" }

/-- Rate responses for the C1 witness: only the video v2 trips the quota
marker. -/
def quotaAtV2API : YouTubeAPI :=
  { forHandle := fun _ => Except.ok [],
    forUsername := fun _ => Except.ok [],
    search := fun _ _ => { items := [], nextPageToken := none },
    rate := fun vid => if vid == "v2" then some "quotaExceeded" else none }

/-- Rate responses for the C6 witness: every rate call succeeds. -/
def okRateAPI : YouTubeAPI :=
  { forHandle := fun _ => Except.ok [],
    forUsername := fun _ => Except.ok [],
    search := fun _ _ => { items := [], nextPageToken := none },
    rate := fun _ => none }

/-- Search responses for the C2 material: every page is empty and omits
the continuation cursor, as a channel with no videos answers. -/
def emptyPageAPI : YouTubeAPI :=
  { forHandle := fun _ => Except.ok [],
    forUsername := fun _ => Except.ok [],
    search := fun _ _ => { items := [], nextPageToken := none },
    rate := fun _ => none }

/-- Search responses for the C2 witness: the single page carries one item
and omits the cursor. -/
def onePageAPI : YouTubeAPI :=
  { forHandle := fun _ => Except.ok [],
    forUsername := fun _ => Except.ok [],
    search := fun _ _ => { items := [{ videoId := "a" }], nextPageToken := none },
    rate := fun _ => none }

lemma data_at_append (s : String) : ("@" ++ s).data = '@' :: s.data := by
  rw [String.data_append]; rfl

lemma clean_handle_at (s : String) : clean_handle ("@" ++ s) = clean_handle s := by
  unfold clean_handle
  rw [data_at_append]
  simp [List.dropWhile_cons]

/-- C8: handle normalization is idempotent and makes the at-sign prefix
irrelevant: prefixing a handle with the at-sign does not change its cleaned
form, cleaning twice equals cleaning once, and the double-prefixed handle
cleans to the same key as the bare one. -/
theorem C8_clean_handle_idempotent (h : String) :
    clean_handle ("@" ++ h) = clean_handle h ∧
    clean_handle (clean_handle h) = clean_handle h ∧
    clean_handle ("@" ++ ("@" ++ h)) = clean_handle h := by
  refine ⟨clean_handle_at h, ?_, by rw [clean_handle_at, clean_handle_at]⟩
  unfold clean_handle
  rw [List.dropWhile_idempotent]

/-- C7: whenever the handle lookup produces a match, the resolver returns
the channel built from that match and the strategy log shows that only the
handle strategy was invoked (the username lookup is never reached). -/
theorem C7_handle_lookup_short_circuits (youtube : YouTubeAPI)
    (handle : String) (r : ChannelItem)
    (hm : lookup_channel_by_handle youtube (clean_handle handle) = some r) :
    find_channel_run youtube handle =
      (some { id := r.id, handle := handle }, [Strategy.byHandle]) := by
  simp only [find_channel_run, hm]

/-- Witness for C7 at a concrete input. -/
theorem C7_witness :
    find_channel_run handleAPI "@the_hampter" =
      (some { id := "UC123", handle := "@the_hampter" }, [Strategy.byHandle]) :=
  C7_handle_lookup_short_circuits handleAPI "@the_hampter" { id := "UC123" } rfl

/-- C9: when some strategy matches, the resolver pairs the identifier of
the first item of the first succeeding strategy with the original,
un-normalized handle. -/
theorem C9_first_match_wins (youtube : YouTubeAPI) (handle : String)
    (item : ChannelItem) (rest : List ChannelItem)
    (hm : youtube.forHandle (clean_handle handle) = Except.ok (item :: rest) ∨
      (lookup_channel_by_handle youtube (clean_handle handle) = none ∧
        youtube.forUsername (clean_handle handle) = Except.ok (item :: rest))) :
    find_channel youtube handle = some { id := item.id, handle := handle } := by
  rcases hm with hm | ⟨h1, h2⟩
  · have hl : lookup_channel_by_handle youtube (clean_handle handle) = some item := by
      unfold lookup_channel_by_handle
      rw [hm]
      rfl
    simp only [find_channel, find_channel_run, hl]
  · have hl : lookup_channel_by_username youtube (clean_handle handle) = some item := by
      unfold lookup_channel_by_username
      rw [h2]
      rfl
    simp only [find_channel, find_channel_run, h1, hl]

/-- Witness for C9 at a concrete input. -/
theorem C9_witness :
    find_channel handleAPI "@the_hampter" =
      some { id := "UC123", handle := "@the_hampter" } :=
  C9_first_match_wins handleAPI "@the_hampter" { id := "UC123" } [] (Or.inl rfl)

/-- C4: when both lookup strategies fail, the orchestrator returns the
sentinel triple and its ghost request log is empty: no page request and no
rate request is issued. -/
theorem C4_not_found_sentinel (youtube : YouTubeAPI) (handle : String)
    (hasCallback : Bool)
    (hH : lookup_channel_by_handle youtube (clean_handle handle) = none)
    (hU : lookup_channel_by_username youtube (clean_handle handle) = none) :
    like_all_channel_videos youtube handle hasCallback = (none, [], []) ∧
    like_all_channel_videos_run youtube handle hasCallback = ([], []) := by
  have hfc : find_channel youtube handle = none := by
    simp only [find_channel, find_channel_run, hH, hU]
  constructor
  · unfold like_all_channel_videos
    rw [hfc]
  · unfold like_all_channel_videos_run
    rw [hfc]

/-- Witness for C4 at a concrete input. -/
theorem C4_witness :
    like_all_channel_videos ghostAPI "@ghost" true = (none, [], []) ∧
    like_all_channel_videos_run ghostAPI "@ghost" true = ([], []) :=
  C4_not_found_sentinel ghostAPI "@ghost" true rfl rfl

lemma like_video_video_id (youtube : YouTubeAPI) (video : Video) :
    (like_video youtube video).video_id = video.id := by
  unfold like_video
  cases youtube.rate video.id <;> rfl

/-- C5: the non-callback bulk path produces one result per input video, in
input order, attempting every video unconditionally: the result list has
the input length, its entry at every index is the like attempt of the
input at that index (so no short-circuit happens, whatever the quota flags
of earlier results are), and the issued rate requests are exactly the
input identifiers in order. -/
theorem C5_bulk_like_attempts_all (youtube : YouTubeAPI)
    (videos : List Video) :
    (like_videos youtube videos).length = videos.length ∧
    (∀ i : Nat, (like_videos youtube videos)[i]? =
      (videos[i]?).map (like_video youtube)) ∧
    (like_videos youtube videos).map (fun r => r.video_id) =
      videos.map (fun v => v.id) := by
  refine ⟨by simp [like_videos], fun i => ?_, ?_⟩
  · simp [like_videos]
  · unfold like_videos
    rw [List.map_map]
    apply List.map_congr_left
    intro v _
    exact like_video_video_id youtube v

lemma starts_with_trans : ∀ (a b c : List Char),
    starts_with a b = true → starts_with b c = true → starts_with a c = true := by
  intro a b c
  induction c generalizing a b with
  | nil => intro _ _; cases a <;> rfl
  | cons x xs ih =>
    intro hab hbc
    match b, hbc with
    | y :: ys, hbc =>
      match a, hab with
      | z :: zs, hab =>
        simp only [starts_with, Bool.and_eq_true, beq_iff_eq] at hab hbc ⊢
        obtain ⟨hzy, hab⟩ := hab
        obtain ⟨hyx, hbc⟩ := hbc
        exact ⟨hzy.trans hyx, ih zs ys hab hbc⟩

lemma contains_sub_of_starts_with : ∀ (n1 n2 hay : List Char),
    starts_with n1 n2 = true → contains_sub n1 hay = true →
    contains_sub n2 hay = true := by
  intro n1 n2 hay
  induction hay with
  | nil =>
    intro h12 h1
    match n1, h1 with
    | [], _ =>
      match n2, h12 with
      | [], _ => rfl
  | cons c t ih =>
    intro h12 h1
    simp only [contains_sub, Bool.or_eq_true] at h1 ⊢
    rcases h1 with h1 | h1
    · exact Or.inl (starts_with_trans (c :: t) n1 n2 h1 h12)
    · exact Or.inr (ih h12 h1)

lemma starts_with_map (f : Char → Char) : ∀ (hay needle : List Char),
    starts_with hay needle = true →
    starts_with (hay.map f) (needle.map f) = true := by
  intro hay needle
  induction needle generalizing hay with
  | nil => intro _; cases hay <;> rfl
  | cons d ds ih =>
    intro h
    match hay, h with
    | c :: cs, h =>
      simp only [starts_with, Bool.and_eq_true, beq_iff_eq, List.map_cons] at h ⊢
      exact ⟨congrArg f h.1, ih cs h.2⟩

lemma contains_sub_map (f : Char → Char) : ∀ (hay needle : List Char),
    contains_sub needle hay = true →
    contains_sub (needle.map f) (hay.map f) = true := by
  intro hay needle
  induction hay with
  | nil =>
    intro h
    match needle, h with
    | [], _ => rfl
  | cons c t ih =>
    intro h
    simp only [contains_sub, Bool.or_eq_true, List.map_cons] at h ⊢
    rcases h with h | h
    · exact Or.inl (starts_with_map f (c :: t) needle h)
    · exact Or.inr (ih h)

lemma quota_marker_lower (s : String)
    (h : contains_sub "quotaExceeded".data s.data = true) :
    contains_sub "quota".data (lower s).data = true := by
  have h1 : contains_sub ("quotaExceeded".data.map Char.toLower)
      (s.data.map Char.toLower) = true := contains_sub_map Char.toLower _ _ h
  have h2 : ("quotaExceeded".data.map Char.toLower) = "quotaexceeded".data := by decide
  rw [h2] at h1
  exact contains_sub_of_starts_with "quotaexceeded".data "quota".data
    (s.data.map Char.toLower) (by decide) h1

lemma is_quota_exceeded_error_eq (e : String) :
    is_quota_exceeded_error e = contains_sub "quota".data (lower e).data := by
  unfold is_quota_exceeded_error
  cases hA : contains_sub "quotaExceeded".data e.data
  · rw [Bool.false_or]
  · rw [quota_marker_lower e hA, Bool.true_or]

/-- C10: field invariant of every result of `like_video`: the result
carries the identifier of the input video; a success has no error text and
a clear quota flag; a quota-flagged result is a failure carrying the
string form of the raised error; and the quota flag is set exactly when
the lowercased error text contains the marker word quota (the explicit
quotaExceeded disjunct of the source test is subsumed by the
case-insensitive one). -/
theorem C10_like_result_invariant (youtube : YouTubeAPI) (video : Video) :
    (like_video youtube video).video_id = video.id ∧
    ((like_video youtube video).success = true →
      (like_video youtube video).error = none ∧
      (like_video youtube video).quota_exceeded = false) ∧
    ((like_video youtube video).quota_exceeded = true →
      (like_video youtube video).success = false ∧
      ∃ e, youtube.rate video.id = some e ∧
        (like_video youtube video).error = some e) ∧
    (∀ e, youtube.rate video.id = some e →
      (like_video youtube video).quota_exceeded =
        contains_sub "quota".data (lower e).data) := by
  unfold like_video
  cases hr : youtube.rate video.id with
  | none =>
    refine ⟨rfl, fun _ => ⟨rfl, rfl⟩, fun hq => by simp at hq, fun e he => ?_⟩
    exact absurd he (by simp)
  | some err =>
    refine ⟨rfl, fun hs => by simp at hs, fun hq => ?_, fun e he => ?_⟩
    · exact ⟨rfl, err, rfl, rfl⟩
    · cases he
      exact is_quota_exceeded_error_eq err

/-- Witness for C10 at a concrete input. -/
theorem C10_witness :
    ((like_video quotaRateAPI { id := "vid" }).success = false ∧
      ∃ e, quotaRateAPI.rate "vid" = some e ∧
        (like_video quotaRateAPI { id := "vid" }).error = some e) ∧
    (like_video quotaRateAPI { id := "vid" }).quota_exceeded =
      contains_sub "quota".data (lower "403 quotaExceeded").data :=
  ⟨(C10_like_result_invariant quotaRateAPI { id := "vid" }).2.2.1 (by decide),
   (C10_like_result_invariant quotaRateAPI { id := "vid" }).2.2.2
     "403 quotaExceeded" rfl⟩

lemma go_no_quota (youtube : YouTubeAPI) (tot : Nat) :
    ∀ (videos : List Video) (i : Nat),
      (∀ v ∈ videos, (like_video youtube v).quota_exceeded = false) →
      like_videos_with_callback_go youtube tot i videos =
        { results := videos.map (like_video youtube),
          calls := (List.enumFrom i videos).map (fun p => (p.1, tot, p.2)),
          requests := videos.map (fun v => v.id) } := by
  intro videos
  induction videos with
  | nil => intro i _; rfl
  | cons v rest ih =>
    intro i h
    have hv : (like_video youtube v).quota_exceeded = false :=
      h v (List.mem_cons_self v rest)
    have hrest : ∀ w ∈ rest, (like_video youtube w).quota_exceeded = false :=
      fun w hw => h w (List.mem_cons_of_mem v hw)
    simp only [like_videos_with_callback_go, hv, Bool.false_eq_true, if_false,
      ih (i + 1) hrest, List.map_cons, List.enumFrom]

lemma go_quota (youtube : YouTubeAPI) (tot : Nat) (vq : Video)
    (hq : (like_video youtube vq).quota_exceeded = true) :
    ∀ (pre : List Video) (post : List Video) (i : Nat),
      (∀ v ∈ pre, (like_video youtube v).quota_exceeded = false) →
      like_videos_with_callback_go youtube tot i (pre ++ vq :: post) =
        { results := (pre ++ [vq]).map (like_video youtube),
          calls := (List.enumFrom i (pre ++ [vq])).map (fun p => (p.1, tot, p.2)),
          requests := (pre ++ [vq]).map (fun v => v.id) } := by
  intro pre
  induction pre with
  | nil =>
    intro post i _
    simp only [List.nil_append, like_videos_with_callback_go, hq, if_true,
      List.map_cons, List.map_nil, List.enumFrom]
  | cons p ps ih =>
    intro post i h
    have hp : (like_video youtube p).quota_exceeded = false :=
      h p (List.mem_cons_self p ps)
    have hps : ∀ w ∈ ps, (like_video youtube w).quota_exceeded = false :=
      fun w hw => h w (List.mem_cons_of_mem p hw)
    simp only [List.cons_append, like_videos_with_callback_go, hp,
      Bool.false_eq_true, if_false, List.append_eq, ih post (i + 1) hps,
      List.map_cons, List.enumFrom]

lemma take_len_succ_append (pre : List Video) (vq : Video)
    (post : List Video) :
    (pre ++ vq :: post).take (pre.length + 1) = pre ++ [vq] := by
  induction pre with
  | nil => rfl
  | cons p ps ih => simp only [List.cons_append, List.length_cons,
      List.take_succ_cons, ih]

/-- C1: when the video at 1-based position `pre.length + 1` is the first
whose like attempt carries the quota flag, the callback-driven executor
returns exactly the like attempts of the first `pre.length + 1` input
videos (a truncated, not padded, prefix of the input), invokes the
progress callback exactly `pre.length + 1` times, and the issued rate
requests are exactly the identifiers of those first videos, so none of
the later videos is requested. -/
theorem C1_callback_stops_at_first_quota (youtube : YouTubeAPI)
    (pre post : List Video) (vq : Video)
    (hpre : ∀ v ∈ pre, (like_video youtube v).quota_exceeded = false)
    (hq : (like_video youtube vq).quota_exceeded = true) :
    like_videos_with_callback youtube (pre ++ vq :: post) =
      ((pre ++ vq :: post).take (pre.length + 1)).map (like_video youtube) ∧
    (like_videos_with_callback_run youtube (pre ++ vq :: post)).calls.length =
      pre.length + 1 ∧
    (like_videos_with_callback_run youtube (pre ++ vq :: post)).requests =
      ((pre ++ vq :: post).take (pre.length + 1)).map (fun v => v.id) := by
  have hgo := go_quota youtube (pre ++ vq :: post).length vq hq pre post 1 hpre
  unfold like_videos_with_callback like_videos_with_callback_run
  rw [hgo, take_len_succ_append]
  refine ⟨rfl, ?_, rfl⟩
  simp

/-- Witness for C1 at a concrete input: three videos, quota trips at the
second one. -/
theorem C1_witness :
    like_videos_with_callback quotaAtV2API
        [{ id := "v1" }, { id := "v2" }, { id := "v3" }] =
      (([{ id := "v1" }, { id := "v2" }, { id := "v3" }] :
          List Video).take ([({ id := "v1" } : Video)].length + 1)).map
        (like_video quotaAtV2API) ∧
    (like_videos_with_callback_run quotaAtV2API
        [{ id := "v1" }, { id := "v2" }, { id := "v3" }]).calls.length =
      [({ id := "v1" } : Video)].length + 1 ∧
    (like_videos_with_callback_run quotaAtV2API
        [{ id := "v1" }, { id := "v2" }, { id := "v3" }]).requests =
      (([{ id := "v1" }, { id := "v2" }, { id := "v3" }] :
          List Video).take ([({ id := "v1" } : Video)].length + 1)).map
        (fun v => v.id) :=
  C1_callback_stops_at_first_quota quotaAtV2API [{ id := "v1" }]
    [{ id := "v3" }] { id := "v2" } (by decide) (by decide)

/-- C6: when no like attempt of the input carries the quota flag, the
callback-driven executor returns one result per input video, invokes the
progress callback once per video, and the 1-based count argument of the
successive callback invocations is exactly the sequence 1, 2, ..., N (the
values of `List.range' 1 N`), strictly increasing. -/
theorem C6_callback_without_quota (youtube : YouTubeAPI)
    (videos : List Video)
    (h : ∀ v ∈ videos, (like_video youtube v).quota_exceeded = false) :
    like_videos_with_callback youtube videos =
      videos.map (like_video youtube) ∧
    (like_videos_with_callback_run youtube videos).calls.length =
      videos.length ∧
    (like_videos_with_callback_run youtube videos).calls.map
        (fun c => c.1) = List.range' 1 videos.length := by
  have hgo := go_no_quota youtube videos.length videos 1 h
  unfold like_videos_with_callback like_videos_with_callback_run
  rw [hgo]
  refine ⟨rfl, by simp, ?_⟩
  rw [List.map_map]
  have hcomp : ((fun c => c.1) ∘ fun p : Nat × Video => (p.1, videos.length, p.2)) =
      Prod.fst := rfl
  rw [hcomp, List.enumFrom_map_fst]

/-- Witness for C6 at a concrete input. -/
theorem C6_witness :
    like_videos_with_callback okRateAPI [{ id := "v1" }, { id := "v2" }] =
      ([{ id := "v1" }, { id := "v2" }] : List Video).map
        (like_video okRateAPI) ∧
    (like_videos_with_callback_run okRateAPI
        [{ id := "v1" }, { id := "v2" }]).calls.length =
      ([{ id := "v1" }, { id := "v2" }] : List Video).length ∧
    (like_videos_with_callback_run okRateAPI
        [{ id := "v1" }, { id := "v2" }]).calls.map (fun c => c.1) =
      List.range' 1 ([{ id := "v1" }, { id := "v2" }] : List Video).length :=
  C6_callback_without_quota okRateAPI [{ id := "v1" }, { id := "v2" }]
    (by decide)

lemma accumulate_videos_proj (youtube : YouTubeAPI) (channel_id : String)
    (t : FetchTrace) (m : Nat) :
    accumulate_videos youtube channel_id (t.video_ids, t.page_token) m =
      ((accumulate_videos_run youtube channel_id t m).video_ids,
       (accumulate_videos_run youtube channel_id t m).page_token) := by
  unfold accumulate_videos accumulate_videos_run
  cases hc : t.page_token.isNone && !t.video_ids.isEmpty <;> simp [hc]

lemma foldl_accumulate_proj (youtube : YouTubeAPI) (channel_id : String) :
    ∀ (l : List Nat) (t : FetchTrace),
      l.foldl (accumulate_videos youtube channel_id)
          (t.video_ids, t.page_token) =
        ((l.foldl (accumulate_videos_run youtube channel_id) t).video_ids,
         (l.foldl (accumulate_videos_run youtube channel_id) t).page_token) := by
  intro l
  induction l with
  | nil => intro t; rfl
  | cons m ms ih =>
    intro t
    rw [List.foldl_cons, List.foldl_cons, accumulate_videos_proj]
    exact ih (accumulate_videos_run youtube channel_id t m)

lemma fetch_all_video_ids_eq_run (youtube : YouTubeAPI)
    (channel_id : String) :
    fetch_all_video_ids youtube channel_id =
      (fetch_all_video_ids_run youtube channel_id).video_ids := by
  have h := foldl_accumulate_proj youtube channel_id (List.range 100)
    { video_ids := [], page_token := none, fetched := [] }
  unfold fetch_all_video_ids fetch_all_video_ids_run fetch_state
  rw [show (([], none) : List String × Option String) =
      (({ video_ids := [], page_token := none, fetched := [] } :
          FetchTrace).video_ids,
       ({ video_ids := [], page_token := none, fetched := [] } :
          FetchTrace).page_token) from rfl, h]

lemma fetch_state_succ (youtube : YouTubeAPI) (channel_id : String)
    (n : Nat) :
    fetch_state youtube channel_id (n + 1) =
      accumulate_videos_run youtube channel_id
        (fetch_state youtube channel_id n) n := by
  unfold fetch_state
  rw [List.range_succ, List.foldl_append, List.foldl_cons, List.foldl_nil]

lemma fetch_state_inv (youtube : YouTubeAPI) (channel_id : String) :
    ∀ n : Nat,
      (fetch_state youtube channel_id n).video_ids =
        ((fetch_state youtube channel_id n).fetched.map
          extract_video_ids).flatten ∧
      (fetch_state youtube channel_id n).page_token =
        (fetch_state youtube channel_id n).fetched.getLast?.bind
          PageResponse.nextPageToken := by
  intro n
  induction n with
  | zero => exact ⟨rfl, rfl⟩
  | succ m ih =>
    rw [fetch_state_succ]
    unfold accumulate_videos_run
    cases hc : (fetch_state youtube channel_id m).page_token.isNone &&
        !(fetch_state youtube channel_id m).video_ids.isEmpty
    · simp only [Bool.false_eq_true, if_false]
      refine ⟨?_, ?_⟩
      · simp [ih.1]
      · simp [List.getLast?_concat]
    · simp only [if_true]
      exact ih

lemma fetch_state_fetched_le (youtube : YouTubeAPI) (channel_id : String) :
    ∀ n : Nat, (fetch_state youtube channel_id n).fetched.length ≤ n := by
  intro n
  induction n with
  | zero => exact Nat.le_refl 0
  | succ m ih =>
    rw [fetch_state_succ]
    unfold accumulate_videos_run
    cases hc : (fetch_state youtube channel_id m).page_token.isNone &&
        !(fetch_state youtube channel_id m).video_ids.isEmpty
    · simp only [Bool.false_eq_true, if_false, List.length_append,
        List.length_cons, List.length_nil]
      omega
    · simp only [if_true]
      exact Nat.le_succ_of_le ih

lemma fetch_state_stop (youtube : YouTubeAPI) (channel_id : String) :
    ∀ (n i : Nat) (p : PageResponse),
      (fetch_state youtube channel_id n).fetched[i]? = some p →
      p.nextPageToken = none →
      (((fetch_state youtube channel_id n).fetched.take (i + 1)).map
        extract_video_ids).flatten ≠ [] →
      (fetch_state youtube channel_id n).fetched.length = i + 1 := by
  intro n
  induction n with
  | zero =>
    intro i p hget _ _
    exact absurd hget (by simp [fetch_state])
  | succ m ih =>
    intro i p hget hnp hne
    rw [fetch_state_succ] at hget hne ⊢
    unfold accumulate_videos_run at hget hne ⊢
    cases hc : (fetch_state youtube channel_id m).page_token.isNone &&
        !(fetch_state youtube channel_id m).video_ids.isEmpty
    · rw [hc] at hget hne
      simp only [Bool.false_eq_true, if_false] at hget hne ⊢
      rcases Nat.lt_or_ge i (fetch_state youtube channel_id m).fetched.length
        with hi | hi
      · exfalso
        have hi1 : i + 1 ≤ (fetch_state youtube channel_id m).fetched.length :=
          hi
        have hget0 : (fetch_state youtube channel_id m).fetched[i]? = some p := by
          rw [List.getElem?_append_left hi] at hget
          exact hget
        have htake : ((fetch_state youtube channel_id m).fetched ++
            [fetch_video_page youtube channel_id
              (fetch_state youtube channel_id m).page_token]).take (i + 1) =
            (fetch_state youtube channel_id m).fetched.take (i + 1) :=
          List.take_append_of_le_length hi1
        rw [htake] at hne
        have hlen : (fetch_state youtube channel_id m).fetched.length = i + 1 :=
          ih i p hget0 hnp hne
        have hinv := fetch_state_inv youtube channel_id m
        have hlast : (fetch_state youtube channel_id m).fetched.getLast? =
            some p := by
          rw [List.getLast?_eq_getElem?, hlen, Nat.add_sub_cancel]
          exact hget0
        have htok : (fetch_state youtube channel_id m).page_token = none := by
          rw [hinv.2, hlast]
          exact hnp
        have hids : (fetch_state youtube channel_id m).video_ids ≠ [] := by
          rw [hinv.1]
          rw [← List.take_length
            (l := (fetch_state youtube channel_id m).fetched), hlen]
          exact hne
        rw [htok] at hc
        have : (fetch_state youtube channel_id m).video_ids.isEmpty = true := by
          cases hE : (fetch_state youtube channel_id m).video_ids.isEmpty
          · rw [hE] at hc
            simp at hc
          · rfl
        exact hids (List.isEmpty_iff.mp this)
      · have hilt : i <
            ((fetch_state youtube channel_id m).fetched ++
              [fetch_video_page youtube channel_id
                (fetch_state youtube channel_id m).page_token]).length := by
          rcases List.getElem?_eq_some.mp hget with ⟨hlt, _⟩
          exact hlt
        simp only [List.length_append, List.length_cons, List.length_nil]
          at hilt ⊢
        omega
    · rw [hc] at hget hne
      simp only [if_true] at hget hne ⊢
      exact ih i p hget hnp hne

/-- C2 amended: the identifier sequence returned by the enumerator equals
the in-order concatenation of the item identifiers of all fetched pages
(so the enumerator introduces no entries of its own); and a fetched page
that omits the continuation cursor is the last page fetched, provided the
identifiers collected through that page are nonempty.  (Without that
proviso the code keeps issuing page requests: see the counterexample.) -/
theorem C2_pagination_amended (youtube : YouTubeAPI) (channel_id : String) :
    fetch_all_video_ids youtube channel_id =
      ((fetch_all_video_ids_run youtube channel_id).fetched.map
        extract_video_ids).flatten ∧
    (∀ (i : Nat) (p : PageResponse),
      (fetch_all_video_ids_run youtube channel_id).fetched[i]? = some p →
      p.nextPageToken = none →
      (((fetch_all_video_ids_run youtube channel_id).fetched.take
        (i + 1)).map extract_video_ids).flatten ≠ [] →
      (fetch_all_video_ids_run youtube channel_id).fetched.length = i + 1) := by
  constructor
  · rw [fetch_all_video_ids_eq_run]
    exact (fetch_state_inv youtube channel_id 100).1
  · intro i p hget hnp hne
    exact fetch_state_stop youtube channel_id 100 i p hget hnp hne

set_option maxRecDepth 10000

/-- Counterexample to C2 as stated: against an API whose very first page
response omits the continuation cursor (and carries no items), the
enumerator does not stop after that page — it issues all 100 page
requests. -/
theorem C2_counterexample :
    (fetch_video_page emptyPageAPI "UCempty" none).nextPageToken = none ∧
    (fetch_all_video_ids_run emptyPageAPI "UCempty").fetched.length = 100 := by
  constructor
  · rfl
  · decide

/-- Witness for the amended C2 at a concrete input: one nonempty page with
no cursor, and enumeration stops after it. -/
theorem C2_witness :
    fetch_all_video_ids onePageAPI "UC1" =
      ((fetch_all_video_ids_run onePageAPI "UC1").fetched.map
        extract_video_ids).flatten ∧
    (fetch_all_video_ids_run onePageAPI "UC1").fetched.length = 0 + 1 :=
  ⟨(C2_pagination_amended onePageAPI "UC1").1,
   (C2_pagination_amended onePageAPI "UC1").2 0
     { items := [{ videoId := "a" }], nextPageToken := none }
     (by decide) rfl (by decide)⟩

/-- C3: the enumerator issues at most 100 page requests whatever the API
does (the fold is over `range(100)`, and each step issues at most one
request), and being a total function it terminates. -/
theorem C3_page_request_bound (youtube : YouTubeAPI) (channel_id : String) :
    (fetch_all_video_ids_run youtube channel_id).fetched.length ≤ 100 :=
  fetch_state_fetched_le youtube channel_id 100

end HampterLiker
